import Mathlib

set_option maxRecDepth 40000

/-!
Verification of `ios_backup_message_archiver.py`.

Python strings are modelled as `List Char`; Python `None` as `Option.none`;
Python dictionaries as functions into `Option` (where `none` means the key is
absent); an uncaught Python exception as `Except.error`.  Machine-independent
Python 2 integers are modelled as `Int` (they are unbounded in Python).
-/

namespace Archiver

/-- Python `s.startswith(p)` for strings `p` and `s`: `p` is an initial
segment of `s`, character for character. -/
def pyStartsWith : List Char → List Char → Bool
  | [], _ => true
  | _ :: _, [] => false
  | p :: ps, c :: cs => p == c && pyStartsWith ps cs

/-- Python `s.lstrip(chars)`: removes LEADING characters of `s` that belong to
the character SET of `chars` (not the exact sequence `chars`). -/
def pyLstrip (chars : List Char) (s : List Char) : List Char :=
  s.dropWhile (fun c => chars.contains c)

/-- Python `s.replace(c, EMPTY)` for a one-character pattern `c`: removes every
occurrence of the character `c` from `s`. -/
def pyRemoveChar (c : Char) (s : List Char) : List Char :=
  s.filter (fun x => x != c)

/-- Python `s.split(sep)` for the one-character separator SPACE, keeping empty
fields exactly as Python does. -/
def pySplitSpace : List Char → List (List Char)
  | [] => [[]]
  | c :: rest =>
    match pySplitSpace rest with
    | w :: ws => if c == ' ' then [] :: w :: ws else (c :: w) :: ws
    | [] => if c == ' ' then [[], []] else [[c]]

/-! ### SHA-1 (model of Python `hashlib.sha1(...).hexdigest()`)

Implemented over `Nat` with explicit reduction modulo `2 ^ 32`. -/

/-- Reduce modulo `2 ^ 32`. -/
def w32 (n : Nat) : Nat := n % 4294967296

/-- Rotate a 32-bit word left by `k` bits. -/
def rotl32 (k x : Nat) : Nat := w32 ((x <<< k) ||| (x >>> (32 - k)))

/-- UTF-8 encoding of one character as a list of bytes. -/
def utf8EncodeCharBytes (c : Char) : List Nat :=
  let n := c.toNat
  if n < 128 then [n]
  else if n < 2048 then [192 ||| (n >>> 6), 128 ||| (n &&& 63)]
  else if n < 65536 then
    [224 ||| (n >>> 12), 128 ||| ((n >>> 6) &&& 63), 128 ||| (n &&& 63)]
  else
    [240 ||| (n >>> 18), 128 ||| ((n >>> 12) &&& 63),
     128 ||| ((n >>> 6) &&& 63), 128 ||| (n &&& 63)]

/-- Bytes of a string (UTF-8). -/
def strBytes (s : List Char) : List Nat := s.flatMap utf8EncodeCharBytes

/-- SHA-1 padding: append `0x80`, zero bytes up to 56 mod 64, then the bit
length as 8 big-endian bytes. -/
def sha1Pad (msg : List Nat) : List Nat :=
  let len := msg.length
  let bitLen := len * 8
  let z := (120 - ((len + 1) % 64)) % 64
  msg ++ [128] ++ List.replicate z 0 ++
    [(bitLen >>> 56) % 256, (bitLen >>> 48) % 256, (bitLen >>> 40) % 256,
     (bitLen >>> 32) % 256, (bitLen >>> 24) % 256, (bitLen >>> 16) % 256,
     (bitLen >>> 8) % 256, bitLen % 256]

/-- Group bytes into big-endian 32-bit words. -/
def bytesToWords : List Nat → List Nat
  | a :: b :: c :: d :: rest => (((a * 256 + b) * 256 + c) * 256 + d) :: bytesToWords rest
  | _ => []

/-- Group words into 16-word blocks. -/
def wordsToBlocks : List Nat → List (List Nat)
  | w0 :: w1 :: w2 :: w3 :: w4 :: w5 :: w6 :: w7 ::
    w8 :: w9 :: w10 :: w11 :: w12 :: w13 :: w14 :: w15 :: rest =>
    [w0, w1, w2, w3, w4, w5, w6, w7, w8, w9, w10, w11, w12, w13, w14, w15] ::
      wordsToBlocks rest
  | _ => []

/-- SHA-1 round function `f_t`. -/
def sha1F (t b c d : Nat) : Nat :=
  if t < 20 then (b &&& c) ||| ((b ^^^ 4294967295) &&& d)
  else if t < 40 then b ^^^ c ^^^ d
  else if t < 60 then (b &&& c) ||| (b &&& d) ||| (c &&& d)
  else b ^^^ c ^^^ d

/-- SHA-1 round constant `K_t`. -/
def sha1K (t : Nat) : Nat :=
  if t < 20 then 1518500249
  else if t < 40 then 1859775393
  else if t < 60 then 2400959708
  else 3395469782

/-- Expand a 16-word block into the 80-word message schedule. -/
def sha1Schedule (ws : List Nat) : List Nat :=
  (List.range 80).foldl
    (fun acc t =>
      if t < 16 then acc ++ [ws.getD t 0]
      else acc ++ [rotl32 1 ((acc.getD (t - 3) 0) ^^^ (acc.getD (t - 8) 0) ^^^
                             (acc.getD (t - 14) 0) ^^^ (acc.getD (t - 16) 0))])
    []

/-- One SHA-1 round on state `(a, b, c, d, e)` with round index and word. -/
def sha1Round (st : Nat × Nat × Nat × Nat × Nat) (tw : Nat × Nat) :
    Nat × Nat × Nat × Nat × Nat :=
  let a := st.1; let b := st.2.1; let c := st.2.2.1; let d := st.2.2.2.1
  let e := st.2.2.2.2
  let t := tw.1; let w := tw.2
  (w32 (rotl32 5 a + sha1F t b c d + e + sha1K t + w), a, rotl32 30 b, c, d)

/-- Compress one 16-word block into the running hash state. -/
def sha1Block (h : Nat × Nat × Nat × Nat × Nat) (block : List Nat) :
    Nat × Nat × Nat × Nat × Nat :=
  let ws := sha1Schedule block
  let r := ((List.range 80).zip ws).foldl sha1Round h
  (w32 (h.1 + r.1), w32 (h.2.1 + r.2.1), w32 (h.2.2.1 + r.2.2.1),
   w32 (h.2.2.2.1 + r.2.2.2.1), w32 (h.2.2.2.2 + r.2.2.2.2))

/-- SHA-1 of a byte list, as the five 32-bit words of the digest. -/
def sha1Words (msg : List Nat) : List Nat :=
  let blocks := wordsToBlocks (bytesToWords (sha1Pad msg))
  let h := blocks.foldl sha1Block
    (1732584193, 4023233417, 2562383102, 271733878, 3285377520)
  [h.1, h.2.1, h.2.2.1, h.2.2.2.1, h.2.2.2.2]

/-- One lowercase hexadecimal digit. -/
def hexNibble (n : Nat) : Char :=
  if n < 10 then Char.ofNat (48 + n) else Char.ofNat (87 + n)

/-- A 32-bit word as 8 lowercase hexadecimal characters, most significant
nibble first. -/
def wordToHex (w : Nat) : List Char :=
  (List.range 8).map (fun i => hexNibble ((w >>> (28 - 4 * i)) &&& 15))

/-- Python `hashlib.sha1(s).hexdigest()`: lowercase hexadecimal SHA-1 digest
of the bytes of `s`. -/
def sha1Hexdigest (s : List Char) : List Char :=
  ((sha1Words (strBytes s)).map wordToHex).flatten

/-! ### `convert_attachment_name` (source lines 180-206)

The function first rewrites the device path into `new_name` (emitting a
warning and producing the empty string when no device root matches), then
returns the SHA-1 hex digest of `new_name`.  Warnings emitted through the
log object are collected in the second component. -/

/-- The `new_name` computation of `convert_attachment_name` (source lines
195-203), together with the warnings logged.  Note the source uses Python
`lstrip`, which strips a character SET, not the exact leading sequence. -/
def convert_attachment_new_name (name : List Char) : List Char × List (List Char) :=
  if pyStartsWith (("/var/mobile/").data) name then
    ((("MediaDomain-").data) ++ pyLstrip (("/var/mobile/").data) name, [])
  else if pyStartsWith (("~/").data) name then
    ((("MediaDomain-").data) ++ pyLstrip (("~/").data) name, [])
  else
    ([], [(("Bad data in the attachments table. Bad filename: ").data) ++ name])

/-- `convert_attachment_name` (source lines 180-206): the hex digest of
`new_name`, plus any warnings logged. -/
def convert_attachment_name (name : List Char) : List Char × List (List Char) :=
  let r := convert_attachment_new_name name
  (sha1Hexdigest r.1, r.2)

/-! ### `normalize_phone_number` (source lines 248-272) -/

/-- The intermediate value of `normalize_phone_number` after the leading-plus
strip (lines 265-266) and the six separator removals (lines 267-269), before
the length-10 check.  Each Python `replace(c, EMPTY)` with a one-character
pattern removes every occurrence of that character. -/
def normalize_remainder (s : List Char) : List Char :=
  let s := if pyStartsWith ['+'] s then pyLstrip ['+'] s else s
  let s := pyRemoveChar '(' s
  let s := pyRemoveChar ')' s
  let s := pyRemoveChar '-' s
  let s := pyRemoveChar '.' s
  let s := pyRemoveChar ' ' s
  let s := pyRemoveChar '\u00A0' s
  s

/-- `normalize_phone_number` (source lines 248-272): after stripping and
separator removal, a remainder of length exactly 10 gets a leading `1`. -/
def normalize_phone_number (s : List Char) : List Char :=
  let r := normalize_remainder s
  if r.length = 10 then '1' :: r else r

/-! ### `get_handle_to_contact` (source lines 67-97)

The SQL fetch is modelled by the row list `rows`; each row is a pair of the
`ROWID` (handle id, an integer) and the `id` column (contact string). -/

/-- The per-row transformation of a stored contact (source lines 90-91):
strip leading plus signs when the contact starts with one. -/
def strip_plus (c : List Char) : List Char :=
  if pyStartsWith ['+'] c then pyLstrip ['+'] c else c

/-- Python truthiness test `not d.get(0)`: true when the key is absent
(`None`) or the stored string is empty. -/
def py_falsy : Option (List Char) → Bool
  | none => true
  | some s => s.isEmpty

/-- The dictionary built by the loop of `get_handle_to_contact` (source lines
88-92), before the key-0 fix-up. -/
def handle_pre_map (rows : List (Int × List Char)) : Int → Option (List Char) :=
  rows.foldl (fun m r => Function.update m r.1 (some (strip_plus r.2))) (fun _ => none)

/-- `get_handle_to_contact` (source lines 67-97): build the map, then set key
0 to the sentinel when `not handle_contact_map.get(0)` is truthy. -/
def get_handle_to_contact (rows : List (Int × List Char)) : Int → Option (List Char) :=
  let m := handle_pre_map rows
  if py_falsy (m 0) then Function.update m 0 (some (("me-or-null").data)) else m

/-! ### `get_chat_coversations` (source lines 133-178)

A joined row of the SQL query carries the `message` fields, the join fields
and the `chat_identifier`. -/

/-- `NANOSECONDS` (source line 34). -/
def NANOSECONDS : Int := 1000000000

/-- A joined row from `message`, `chat_message_join` and `chat` (source lines
49-56, 43-44, 46). -/
structure MessageInfo where
  text : Option (List Char)
  handle_id : Int
  service : List Char
  date : Int
  date_read : Int
  is_from_me : Int
  is_read : Int
  chat_id : Int
  message_id : Int
  chat_identifier : List Char
deriving DecidableEq

/-- The per-row date fix-up of `get_chat_coversations` (source lines 169-174):
each of `date` and `date_read` is divided by `NANOSECONDS` exactly when it is
strictly greater than `NANOSECONDS`.  Python 2 integer division is floor
division, here `Int.fdiv`. -/
def process_message_dates (m : MessageInfo) : MessageInfo :=
  let m := if m.date > NANOSECONDS then
    { m with date := Int.fdiv m.date NANOSECONDS } else m
  let m := if m.date_read > NANOSECONDS then
    { m with date_read := Int.fdiv m.date_read NANOSECONDS } else m
  m

/-- `get_chat_coversations` (source lines 133-178): group the date-fixed rows
by `chat_identifier`, appending in row order.  The dictionary is modelled as
a total function defaulting to the empty list. -/
def get_chat_coversations (rows : List MessageInfo) : List Char → List MessageInfo :=
  rows.foldl
    (fun conv row =>
      let mi := process_message_dates row
      Function.update conv mi.chat_identifier (conv mi.chat_identifier ++ [mi]))
    (fun _ => [])

/-! ### `get_contacts_map` (source lines 274-327)

Each SQL row carries a key column (email or phone number) and the three
`ABPerson` columns, any of which can be SQL NULL (Python `None`) because of
the LEFT JOIN.  A stored dictionary value can itself be Python `None`, hence
the nested `Option`. -/

/-- The display value computed for one row (source lines 301-306 and
319-324): the space-join of the name parts that are not `None`, or the
organization column (itself possibly `None`) when both name parts are
`None`. -/
def contact_display (first last org : Option (List Char)) : Option (List Char) :=
  let names := [first, last].filterMap id
  if names = [] then org else some (List.intercalate [' '] names)

/-- `get_contacts_map` (source lines 274-327): insert the email rows, then
the phone rows under normalized keys.  The outer `Option` marks key absence;
the inner one is the stored Python value. -/
def get_contacts_map
    (emailRows phoneRows :
      List (List Char × Option (List Char) × Option (List Char) × Option (List Char))) :
    List Char → Option (Option (List Char)) :=
  let m : List Char → Option (Option (List Char)) := emailRows.foldl
    (fun m r => Function.update m r.1 (some (contact_display r.2.1 r.2.2.1 r.2.2.2)))
    (fun _ => none)
  phoneRows.foldl
    (fun m r => Function.update m (normalize_phone_number r.1)
      (some (contact_display r.2.1 r.2.2.1 r.2.2.2)))
    m

/-- Python `d.get(k, k)` on a contacts map: the stored value (possibly Python
`None`) when the key is present, otherwise the key itself. -/
def py_dict_get (m : List Char → Option (Option (List Char))) (k : List Char) :
    Option (List Char) :=
  match m k with
  | some v => v
  | none => some k

/-! ### The main loop (source lines 419-493) -/

/-- Uncaught Python exceptions that the modelled code can raise. -/
inductive PyErr where
  | keyError (k : List Char)
  | keyErrorInt (k : Int)
  | attributeError
  | typeError
deriving DecidableEq

/-- Map a fallible function over a list, stopping at the first uncaught
exception (the semantics of a Python list comprehension or loop). -/
def mapOrErr (f : α → Except PyErr β) : List α → Except PyErr (List β)
  | [] => .ok []
  | a :: as =>
    match f a with
    | .error e => .error e
    | .ok b =>
      match mapOrErr f as with
      | .error e => .error e
      | .ok bs => .ok (b :: bs)

/-- Line 420, inner lookup: `handle_contact_map[h]` raises `KeyError` when
the handle is absent. -/
def chat_contacts_resolved (hm : Int → Option (List Char)) (handles : List Int) :
    Except PyErr (List (List Char)) :=
  mapOrErr (fun h => match hm h with
    | some c => .ok c
    | none => .error (.keyErrorInt h)) handles

/-- Lines 421-422: `contacts_map.get(contact, contact)` for each resolved
contact; a stored Python `None` flows through. -/
def chat_contacts_named (cm : List Char → Option (Option (List Char)))
    (cs : List (List Char)) : List (Option (List Char)) :=
  cs.map (py_dict_get cm)

/-- Line 425: `list(set(chat_contacts))`.  Python iterates the set in an
unspecified order; the model keeps each distinct element exactly once
(first occurrence first). -/
def chat_contacts_dedup (l : List (Option (List Char))) : List (Option (List Char)) :=
  l.dedup

/-- Lines 426-427, inner expression: `join` of `contact.split` on a space
with dashes; a Python `None` contact raises `AttributeError` here. -/
def dash_join_contact : Option (List Char) → Except PyErr (List Char)
  | some c => .ok (List.intercalate ['-'] (pySplitSpace c))
  | none => .error .attributeError

/-- Lines 426-427: the file base string, chat identifier and the joined
contact names. -/
def filebase (id : List Char) (names : List (Option (List Char))) :
    Except PyErr (List Char) :=
  match mapOrErr dash_join_contact names with
  | .error e => .error e
  | .ok parts => .ok (id ++ '_' :: List.intercalate ['_'] parts)

/-- Line 433: the comma-join of the contact names for the document header; a
Python `None` raises `TypeError` inside `join`. -/
def comma_join_names (names : List (Option (List Char))) :
    Except PyErr (List Char) :=
  match mapOrErr (fun n => match n with
      | some c => Except.ok c
      | none => Except.error PyErr.typeError) names with
  | .error e => .error e
  | .ok parts => .ok (List.intercalate [',', ' '] parts)

/-- Lines 435-491: the per-message loop.  The body of the `try` (assembling
and writing one message) is abstracted as `render`; on an exception the
message is logged (collected in the second component) and skipped, and the
loop continues. -/
def render_messages (render : MessageInfo → Except PyErr (List Char))
    (conv : List MessageInfo) : List (List Char) × List MessageInfo :=
  conv.foldl
    (fun acc msg =>
      match render msg with
      | .ok s => (acc.1 ++ [s], acc.2)
      | .error _ => (acc.1, acc.2 ++ [msg]))
    ([], [])

/-- The document produced for one chat: file base, header names, rendered
message bodies in order, and the messages skipped by the `except` clause. -/
structure ChatDoc where
  file_base : List Char
  header : List Char
  body : List (List Char)
  skipped : List MessageInfo
deriving DecidableEq

/-- Lines 419-493, one iteration: resolve `contacts_in_chat[id]` (an
unguarded lookup that raises `KeyError` when the chat identifier is absent),
resolve the handles, name and dedup the contacts, build the file base and
header, then run the per-message loop. -/
def process_chat (hm : Int → Option (List Char))
    (cm : List Char → Option (Option (List Char)))
    (cic : List Char → Option (List Int))
    (render : MessageInfo → Except PyErr (List Char))
    (id : List Char) (conv : List MessageInfo) : Except PyErr ChatDoc :=
  match cic id with
  | none => .error (.keyError id)
  | some handles =>
    match chat_contacts_resolved hm handles with
    | .error e => .error e
    | .ok cs =>
      let names := chat_contacts_dedup (chat_contacts_named cm cs)
      match filebase id names with
      | .error e => .error e
      | .ok fb =>
        match comma_join_names names with
        | .error e => .error e
        | .ok hd =>
          let r := render_messages render conv
          .ok ⟨fb, hd, r.1, r.2⟩

/-- Lines 419-493: the loop over all conversations; any uncaught exception
aborts the whole run. -/
def main_loop (hm : Int → Option (List Char))
    (cm : List Char → Option (Option (List Char)))
    (cic : List Char → Option (List Int))
    (render : MessageInfo → Except PyErr (List Char))
    (convs : List (List Char × List MessageInfo)) : Except PyErr (List ChatDoc) :=
  mapOrErr (fun p => process_chat hm cm cic render p.1 p.2) convs

end Archiver


namespace Archiver

/-! ### Helper lemmas -/

/-- Grouping lemma for the fold of `get_chat_coversations`, generalized over
the accumulator. -/
theorem conv_foldl_group (rows : List MessageInfo) :
    ∀ (acc : List Char → List MessageInfo) (ci : List Char),
      (rows.foldl
        (fun conv row =>
          let mi := process_message_dates row
          Function.update conv mi.chat_identifier (conv mi.chat_identifier ++ [mi]))
        acc) ci =
      acc ci ++ (rows.map process_message_dates).filter
        (fun m => m.chat_identifier == ci) := by
  induction rows with
  | nil => intro acc ci; simp
  | cons r rest ih =>
    intro acc ci
    simp only [List.foldl_cons, List.map_cons, List.filter_cons]
    rw [ih]
    by_cases h : (process_message_dates r).chat_identifier = ci
    · simp [Function.update_apply, h, List.append_assoc]
    · simp [Function.update_apply, h, Ne.symm h]

/-! ### Claim C1 -/

/-- C1: the claim states that for a path beginning with the exact device root
`/var/mobile/`, the derived key is the SHA-1 digest of `MediaDomain-` plus the
remainder after removing ONLY that exact occurrence, character for character.
The code instead uses Python `lstrip`, which treats the root as a character
set: on `/var/mobile/ramdisk/x.jpg` it also strips the `ram` of `ramdisk`,
hashing `MediaDomain-disk/x.jpg` instead of `MediaDomain-ramdisk/x.jpg`.
This theorem evaluates the code at that failing input. -/
theorem C1_lstrip_charset_bug :
    convert_attachment_new_name (("/var/mobile/ramdisk/x.jpg").data) =
      ((("MediaDomain-disk/x.jpg").data), []) ∧
    (("MediaDomain-disk/x.jpg").data) ≠ (("MediaDomain-ramdisk/x.jpg").data) ∧
    convert_attachment_name (("/var/mobile/ramdisk/x.jpg").data) =
      (sha1Hexdigest (("MediaDomain-disk/x.jpg").data), []) := by
  have h : convert_attachment_new_name (("/var/mobile/ramdisk/x.jpg").data) =
      ((("MediaDomain-disk/x.jpg").data), []) := by decide
  exact ⟨h, by decide, by simp [convert_attachment_name, h]⟩

/-! ### Claim C2 -/

/-- C2 counterexample: on a path matching neither device root the function
does NOT return an empty derived key; it returns the (40-character) SHA-1 hex
digest of the empty string. -/
theorem C2_bad_path_counterexample :
    (convert_attachment_name (("foo.jpg").data)).1 = sha1Hexdigest [] ∧
    sha1Hexdigest [] ≠ [] := by
  exact ⟨rfl, by decide⟩

/-- C2 (amended): for every path starting with neither `/var/mobile/` nor
`~/`, the function logs the bad-filename warning and returns the SHA-1 hex
digest of the EMPTY string (the empty `new_name` is still hashed), not an
empty result. -/
theorem C2_bad_path_amended : ∀ name : List Char,
    pyStartsWith (("/var/mobile/").data) name = false →
    pyStartsWith (("~/").data) name = false →
    convert_attachment_name name =
      (sha1Hexdigest [],
       [(("Bad data in the attachments table. Bad filename: ").data) ++ name]) := by
  intro name h1 h2
  simp [convert_attachment_name, convert_attachment_new_name, h1, h2]

/-- C2 witness: the amended theorem applied at the concrete input
`foo.jpg`. -/
theorem C2_bad_path_witness :
    convert_attachment_name (("foo.jpg").data) =
      (sha1Hexdigest [],
       [(("Bad data in the attachments table. Bad filename: ").data) ++
        (("foo.jpg").data)]) :=
  C2_bad_path_amended (("foo.jpg").data) (by decide) (by decide)

/-! ### Claim C3 -/

/-- C3: in the extracted conversations each message has its `date` and
`date_read` independently floor-divided by `10 ^ 9` exactly when strictly
greater than `10 ^ 9`, each field depending only on its own raw value;
`5000000000` becomes `5`, `500000000` is unchanged. -/
theorem C3_date_scaling :
    (∀ m : MessageInfo,
      (process_message_dates m).date =
        (if m.date > 1000000000 then Int.fdiv m.date 1000000000 else m.date) ∧
      (process_message_dates m).date_read =
        (if m.date_read > 1000000000 then Int.fdiv m.date_read 1000000000
         else m.date_read)) ∧
    (∀ (rows : List MessageInfo) (ci : List Char),
      get_chat_coversations rows ci =
        (rows.map process_message_dates).filter (fun m => m.chat_identifier == ci)) ∧
    (process_message_dates
        ⟨none, 0, [], 5000000000, 500000000, 0, 0, 0, 0, []⟩).date = 5 ∧
    (process_message_dates
        ⟨none, 0, [], 5000000000, 500000000, 0, 0, 0, 0, []⟩).date_read =
      500000000 := by
  refine ⟨?_, ?_, by decide, by decide⟩
  · intro m
    by_cases h1 : m.date > (1000000000 : Int) <;>
      by_cases h2 : m.date_read > (1000000000 : Int) <;>
        simp [process_message_dates, NANOSECONDS, h1, h2]
  · intro rows ci
    unfold get_chat_coversations
    rw [conv_foldl_group rows (fun _ => []) ci]
    simp

/-! ### Claims C4 and C5 -/

/-- A character that is none of the six separators removed by
`normalize_phone_number`. -/
def notSep (c : Char) : Bool :=
  c != '(' && c != ')' && c != '-' && c != '.' && c != ' ' && c != '\u00A0'

/-- Unpack `notSep`. -/
theorem notSep_spec (c : Char) (h : notSep c = true) :
    (c != '(') = true ∧ (c != ')') = true ∧ (c != '-') = true ∧
    (c != '.') = true ∧ (c != ' ') = true ∧ (c != '\u00A0') = true := by
  simp only [notSep, Bool.and_eq_true] at h
  tauto

/-- Every character of the post-removal remainder is a non-separator. -/
theorem mem_remainder_notSep (s : List Char) :
    ∀ c ∈ normalize_remainder s, notSep c = true := by
  intro c hc
  simp only [normalize_remainder, pyRemoveChar, List.mem_filter] at hc
  simp only [notSep, Bool.and_eq_true]
  tauto

/-- Every character of a normalized phone number is a non-separator. -/
theorem mem_normalize_notSep (s : List Char) :
    ∀ c ∈ normalize_phone_number s, notSep c = true := by
  intro c hc
  unfold normalize_phone_number at hc
  by_cases h : (normalize_remainder s).length = 10
  · rw [if_pos h] at hc
    rcases List.mem_cons.mp hc with rfl | hc2
    · decide
    · exact mem_remainder_notSep s c hc2
  · rw [if_neg h] at hc
    exact mem_remainder_notSep s c hc

/-- On a string with no leading plus and no separator characters, the
strip-and-remove stage is the identity. -/
theorem remainder_of_notSep (l : List Char)
    (hplus : pyStartsWith ['+'] l = false)
    (h : ∀ c ∈ l, notSep c = true) : normalize_remainder l = l := by
  unfold normalize_remainder
  simp only [hplus, Bool.false_eq_true, if_false, pyRemoveChar]
  rw [List.filter_eq_self.mpr (fun c hc => (notSep_spec c (h c hc)).1)]
  rw [List.filter_eq_self.mpr (fun c hc => (notSep_spec c (h c hc)).2.1)]
  rw [List.filter_eq_self.mpr (fun c hc => (notSep_spec c (h c hc)).2.2.1)]
  rw [List.filter_eq_self.mpr (fun c hc => (notSep_spec c (h c hc)).2.2.2.1)]
  rw [List.filter_eq_self.mpr (fun c hc => (notSep_spec c (h c hc)).2.2.2.2.1)]
  rw [List.filter_eq_self.mpr (fun c hc => (notSep_spec c (h c hc)).2.2.2.2.2)]

/-- A normalized phone number never has length exactly 10: the length-10 case
gets a character prepended and every other length is preserved. -/
theorem normalize_length_ne_ten (s : List Char) :
    (normalize_phone_number s).length ≠ 10 := by
  unfold normalize_phone_number
  by_cases h : (normalize_remainder s).length = 10
  · rw [if_pos h]
    simp [h]
  · rw [if_neg h]
    exact h

/-- C4 counterexample: `++123` is in the image of the normalizer (it is the
normalization of a string hiding plus signs behind a leading space), yet
normalizing it again strips the leading plus signs and changes it. -/
theorem C4_idempotence_counterexample :
    normalize_phone_number ((" ++123").data) = (("++123").data) ∧
    normalize_phone_number (("++123").data) = (("123").data) ∧
    (("++123").data) ≠ (("123").data) := by decide

/-- C4 (amended): the normalizer maps `+1 (222) 333-4444` and `2223334444`
to `12223334444`, and it is idempotent on every output that does not itself
begin with a plus sign (an output can begin with `+` only when the input hid
plus signs behind removable separators, and is then changed again). -/
theorem C4_normalizer_amended :
    normalize_phone_number (("+1 (222) 333-4444").data) = (("12223334444").data) ∧
    normalize_phone_number (("2223334444").data) = (("12223334444").data) ∧
    ∀ s : List Char, pyStartsWith ['+'] (normalize_phone_number s) = false →
      normalize_phone_number (normalize_phone_number s) =
        normalize_phone_number s := by
  refine ⟨by decide, by decide, ?_⟩
  intro s h
  have hrem : normalize_remainder (normalize_phone_number s) =
      normalize_phone_number s :=
    remainder_of_notSep _ h (mem_normalize_notSep s)
  have hdef : normalize_phone_number (normalize_phone_number s) =
      (if (normalize_remainder (normalize_phone_number s)).length = 10
       then '1' :: normalize_remainder (normalize_phone_number s)
       else normalize_remainder (normalize_phone_number s)) := rfl
  rw [hdef, hrem, if_neg (normalize_length_ne_ten s)]

/-- C4 witness: the amended idempotence applied at `2223334444`. -/
theorem C4_normalizer_witness :
    normalize_phone_number (normalize_phone_number (("2223334444").data)) =
      normalize_phone_number (("2223334444").data) :=
  C4_normalizer_amended.2.2 (("2223334444").data) (by decide)

/-- C5 counterexample: the all-letter remainder `abcdefghij` is not a digit
string, has exactly 10 characters, and is NOT passed through unchanged: the
normalizer prepends `1` to it. -/
theorem C5_length_ten_counterexample :
    (normalize_remainder (("abcdefghij").data)).all (fun c => c.isDigit) = false ∧
    (normalize_remainder (("abcdefghij").data)).length = 10 ∧
    normalize_phone_number (("abcdefghij").data) = (("1abcdefghij").data) ∧
    (("1abcdefghij").data) ≠ (("abcdefghij").data) := by decide

/-- C5 (amended): no digit validation is performed; a non-digit remainder
passes through unchanged exactly when its length is not 10, and when its
length is exactly 10 the normalizer still prepends `1`, the length check
ignoring content. -/
theorem C5_nondigit_passthrough_amended : ∀ s : List Char,
    (normalize_remainder s).all (fun c => c.isDigit) = false →
    ((normalize_remainder s).length ≠ 10 →
      normalize_phone_number s = normalize_remainder s) ∧
    ((normalize_remainder s).length = 10 →
      normalize_phone_number s = '1' :: normalize_remainder s) := by
  intro s _
  constructor <;> intro h <;> simp [normalize_phone_number, h]

/-- C5 witness: the amended theorem applied at the concrete non-digit inputs
`ab#c` (length 4, passed through) and `abcdefghij` (length 10, prepended). -/
theorem C5_nondigit_passthrough_witness :
    normalize_phone_number (("ab#c").data) = normalize_remainder (("ab#c").data) ∧
    normalize_phone_number (("abcdefghij").data) =
      '1' :: normalize_remainder (("abcdefghij").data) :=
  ⟨(C5_nondigit_passthrough_amended (("ab#c").data) (by decide)).1 (by decide),
   (C5_nondigit_passthrough_amended (("abcdefghij").data) (by decide)).2 (by decide)⟩

/-! ### Claim C6 -/

/-- C6 counterexample: a record present in the address book with neither name
parts nor organization (all three columns SQL NULL, as the LEFT JOIN can
produce) stores Python `None`; looking its key up with `get(k, k)` then
yields `None`, NOT the raw contact key. -/
theorem C6_unresolved_counterexample :
    py_dict_get (get_contacts_map [((("k@x").data), none, none, none)] [])
      (("k@x").data) = none ∧
    (none : Option (List Char)) ≠ some (("k@x").data) := by decide

/-- C6 (amended): the display name is the space-join of the name parts that
are present (`First Last` when both are), else the organization value; a key
absent from the contacts map falls back to the raw key; but a key present
with neither names nor organization stores Python `None` and the lookup
yields `None`, not the key. -/
theorem C6_display_fallback_amended :
    (∀ (a b : List Char) (o : Option (List Char)),
      contact_display (some a) (some b) o = some (a ++ ' ' :: b) ∧
      contact_display (some a) none o = some a ∧
      contact_display none (some b) o = some b ∧
      contact_display none none o = o) ∧
    (∀ (m : List Char → Option (Option (List Char))) (k : List Char),
      m k = none → py_dict_get m k = some k) ∧
    (∀ (m : List Char → Option (Option (List Char))) (k : List Char),
      m k = some none → py_dict_get m k = none) := by
  refine ⟨?_, ?_, ?_⟩
  · intro a b o
    refine ⟨?_, ?_, ?_, ?_⟩ <;>
      simp [contact_display, List.intercalate, List.intersperse]
  · intro m k h
    simp [py_dict_get, h]
  · intro m k h
    simp [py_dict_get, h]

/-- C6 witness: the amended fallback behavior at concrete inputs: an absent
key falls back to itself; an all-`None` record yields `None`. -/
theorem C6_display_fallback_witness :
    py_dict_get (fun _ => none) (("x").data) = some (("x").data) ∧
    py_dict_get (get_contacts_map [((("k@x").data), none, none, none)] [])
      (("k@x").data) = none :=
  ⟨C6_display_fallback_amended.2.1 (fun _ => none) (("x").data) rfl,
   C6_display_fallback_amended.2.2 _ (("k@x").data) (by decide)⟩

/-! ### Claim C7 -/

/-- Keys not occurring in the rows are untouched by the handle fold. -/
theorem handle_foldl_not_mem (rows : List (Int × List Char)) :
    ∀ (acc : Int → Option (List Char)) (k : Int), k ∉ rows.map Prod.fst →
      rows.foldl (fun (m : Int → Option (List Char)) r =>
          Function.update m r.1 (some (strip_plus r.2))) acc k =
        acc k := by
  induction rows with
  | nil => intro acc k _; rfl
  | cons r rest ih =>
    intro acc k hk
    simp only [List.map_cons, List.mem_cons] at hk
    push_neg at hk
    simp only [List.foldl_cons]
    rw [ih _ k hk.2, Function.update_apply, if_neg hk.1]

/-- With pairwise-distinct keys, the handle fold maps each row key to its
stripped contact. -/
theorem handle_foldl_mem (rows : List (Int × List Char)) :
    ∀ (acc : Int → Option (List Char)) (k : Int) (c : List Char),
      (rows.map Prod.fst).Nodup → (k, c) ∈ rows →
      rows.foldl (fun (m : Int → Option (List Char)) r =>
          Function.update m r.1 (some (strip_plus r.2))) acc k =
        some (strip_plus c) := by
  induction rows with
  | nil => intro _ _ _ _ h; exact absurd h (List.not_mem_nil _)
  | cons r rest ih =>
    intro acc k c hnd hmem
    simp only [List.map_cons, List.nodup_cons] at hnd
    simp only [List.foldl_cons]
    rcases List.mem_cons.mp hmem with heq | hmem2
    · subst heq
      have hk : k ∉ rest.map Prod.fst := by
        simpa using hnd.1
      rw [handle_foldl_not_mem rest _ k hk, Function.update_apply, if_pos rfl]
    · exact ih _ k c hnd.2 hmem2

/-- C7 counterexample: a key-0 row that IS present in the handle table, with
the empty string as its stored contact, does NOT keep its stored value: the
truthiness test `not get(0)` also fires on an empty string, so the sentinel
overwrites it. -/
theorem C7_sentinel_counterexample :
    get_handle_to_contact [(0, [])] 0 = some (("me-or-null").data) ∧
    (("me-or-null").data) ≠ ([] : List Char) := by decide

/-- C7 (amended): with distinct handle ids, every row maps to its stored
contact with leading plus signs stripped; key 0 maps to the sentinel
`me-or-null` exactly when key 0 is absent OR its stored post-strip value is
the empty string; a key-0 row whose stripped value is non-empty keeps it. -/
theorem C7_handle_map_amended : ∀ rows : List (Int × List Char),
    (rows.map Prod.fst).Nodup →
    (∀ (k : Int) (c : List Char), (k, c) ∈ rows → k ≠ 0 →
      get_handle_to_contact rows k = some (strip_plus c)) ∧
    (∀ c : List Char, (0, c) ∈ rows → strip_plus c ≠ [] →
      get_handle_to_contact rows 0 = some (strip_plus c)) ∧
    (∀ c : List Char, (0, c) ∈ rows → strip_plus c = [] →
      get_handle_to_contact rows 0 = some (("me-or-null").data)) ∧
    ((∀ c : List Char, (0, c) ∉ rows) →
      get_handle_to_contact rows 0 = some (("me-or-null").data)) := by
  intro rows hnd
  have hpre : ∀ (k : Int) (c : List Char), (k, c) ∈ rows →
      handle_pre_map rows k = some (strip_plus c) :=
    fun k c h => handle_foldl_mem rows _ k c hnd h
  refine ⟨?_, ?_, ?_, ?_⟩
  · intro k c hmem hk0
    unfold get_handle_to_contact
    by_cases hf : py_falsy (handle_pre_map rows 0) = true
    · simp only [hf, if_true]
      rw [Function.update_apply, if_neg hk0]
      exact hpre k c hmem
    · simp only [hf, if_false]
      exact hpre k c hmem
  · intro c hmem hne
    have h0 : handle_pre_map rows 0 = some (strip_plus c) := hpre 0 c hmem
    have hf : py_falsy (handle_pre_map rows 0) = false := by
      rw [h0]
      rcases hsc : strip_plus c with _ | ⟨a, t⟩
      · exact absurd hsc hne
      · rfl
    unfold get_handle_to_contact
    rw [hf]
    simpa using h0
  · intro c hmem hempty
    have h0 : handle_pre_map rows 0 = some (strip_plus c) := hpre 0 c hmem
    have hf : py_falsy (handle_pre_map rows 0) = true := by
      rw [h0, hempty]
      rfl
    unfold get_handle_to_contact
    rw [hf]
    simp
  · intro habs
    have h0 : handle_pre_map rows 0 = none := by
      have hk : (0 : Int) ∉ rows.map Prod.fst := by
        intro hk
        rcases List.mem_map.mp hk with ⟨⟨a, b⟩, hab, hfst⟩
        exact habs b (by simpa [← hfst] using hab)
      exact handle_foldl_not_mem rows _ 0 hk
    unfold get_handle_to_contact
    rw [h0]
    simp [py_falsy]

/-- C7 witness: the amended theorem applied to the concrete table with rows
`(1, +12)` and `(0, empty)`: key 1 is stripped to `12`, and the present but
falsy key 0 is overwritten by the sentinel. -/
theorem C7_handle_map_witness :
    get_handle_to_contact [(1, (("+12").data)), (0, [])] 1 =
      some (strip_plus (("+12").data)) ∧
    get_handle_to_contact [(1, (("+12").data)), (0, [])] 0 =
      some (("me-or-null").data) :=
  ⟨(C7_handle_map_amended [(1, (("+12").data)), (0, [])] (by decide)).1 1
      (("+12").data) (by decide) (by decide),
   (C7_handle_map_amended [(1, (("+12").data)), (0, [])] (by decide)).2.2.1 []
      (by decide) (by decide)⟩

/-! ### Claim C8 -/

/-- The number of entries of a contact-name list equal to `n`. -/
def display_name_count (n : Option (List Char)) (l : List (Option (List Char))) : Nat :=
  (l.filter (fun x => decide (x = n))).length

/-- C8: after resolving handles to contacts and contacts to display names,
any display name that occurs among the resolved names (in particular one that
two different handles resolve to) contributes exactly one entry to the
deduplicated list that `process_chat` feeds to the file name and the document
header. -/
theorem C8_dedup_display_names :
    ∀ (hm : Int → Option (List Char))
      (cm : List Char → Option (Option (List Char)))
      (handles : List Int) (cs : List (List Char)),
      chat_contacts_resolved hm handles = .ok cs →
      ∀ n ∈ chat_contacts_named cm cs,
        display_name_count n (chat_contacts_dedup (chat_contacts_named cm cs)) = 1 := by
  intro hm cm handles cs _ n hn
  have h3 := List.count_eq_one_of_mem
    (List.nodup_dedup (chat_contacts_named cm cs))
    (List.mem_dedup.mpr hn)
  unfold display_name_count chat_contacts_dedup
  rw [← List.countP_eq_length_filter]
  exact h3

/-- C8 witness: two handles resolving to the same contact string, hence the
same display name, collapse to a single entry. -/
theorem C8_dedup_display_names_witness :
    display_name_count (some (("a").data))
      (chat_contacts_dedup
        (chat_contacts_named (fun _ => none)
          [(("a").data), (("a").data)])) = 1 :=
  C8_dedup_display_names (fun _ => some (("a").data)) (fun _ => none) [1, 2]
    [(("a").data), (("a").data)] rfl (some (("a").data)) (by decide)

/-! ### Claim C9 -/

/-- The successful result of a per-message render, `none` on an exception. -/
def exceptOk : Except PyErr (List Char) → Option (List Char)
  | .ok s => some s
  | .error _ => none

/-- The fold of `render_messages`, generalized over the accumulator: the
written bodies are exactly the successful renders, in order. -/
theorem render_messages_foldl (render : MessageInfo → Except PyErr (List Char)) :
    ∀ (conv : List MessageInfo) (acc : List (List Char) × List MessageInfo),
      (conv.foldl
        (fun (acc : List (List Char) × List MessageInfo) msg =>
          match render msg with
          | .ok s => (acc.1 ++ [s], acc.2)
          | .error _ => (acc.1, acc.2 ++ [msg])) acc).1 =
      acc.1 ++ conv.filterMap (fun m => exceptOk (render m)) := by
  intro conv
  induction conv with
  | nil => intro acc; simp
  | cons m rest ih =>
    intro acc
    simp only [List.foldl_cons, List.filterMap_cons]
    cases hr : render m with
    | ok s =>
      simp only [hr]
      rw [ih]
      simp [exceptOk]
    | error e =>
      simp only [hr]
      rw [ih]
      simp [exceptOk]

/-- C9: a message whose assembly raises is skipped while every other message
of the conversation is still rendered: with three messages of which the
second raises, the produced body is exactly the first and third rendered
messages in order; in general the body is the in-order list of successful
renders. -/
theorem C9_per_message_isolation :
    ∀ (render : MessageInfo → Except PyErr (List Char)) (m1 m2 m3 : MessageInfo)
      (s1 s3 : List Char) (e : PyErr),
      render m1 = .ok s1 → render m2 = .error e → render m3 = .ok s3 →
      (render_messages render [m1, m2, m3]).1 = [s1, s3] ∧
      (∀ conv : List MessageInfo,
        (render_messages render conv).1 =
          conv.filterMap (fun m => exceptOk (render m))) := by
  intro render m1 m2 m3 s1 s3 e h1 h2 h3
  have hgen : ∀ conv : List MessageInfo,
      (render_messages render conv).1 =
        conv.filterMap (fun m => exceptOk (render m)) := by
    intro conv
    unfold render_messages
    rw [render_messages_foldl render conv ([], [])]
    simp
  refine ⟨?_, hgen⟩
  rw [hgen [m1, m2, m3]]
  simp [h1, h2, h3, exceptOk]

/-- C9 witness: a concrete render that fails exactly on message id 2 yields
the bodies of messages 1 and 3, in order. -/
theorem C9_per_message_isolation_witness :
    (render_messages
      (fun m => if m.message_id = 2 then .error .typeError else .ok (("b").data))
      [⟨none, 0, [], 0, 0, 0, 0, 0, 1, []⟩,
       ⟨none, 0, [], 0, 0, 0, 0, 0, 2, []⟩,
       ⟨none, 0, [], 0, 0, 0, 0, 0, 3, []⟩]).1 =
      [(("b").data), (("b").data)] :=
  (C9_per_message_isolation
    (fun m => if m.message_id = 2 then .error .typeError else .ok (("b").data))
    ⟨none, 0, [], 0, 0, 0, 0, 0, 1, []⟩
    ⟨none, 0, [], 0, 0, 0, 0, 0, 2, []⟩
    ⟨none, 0, [], 0, 0, 0, 0, 0, 3, []⟩
    (("b").data) (("b").data) .typeError rfl rfl rfl).1

/-! ### Claim C10 -/

/-- C10: a chat identifier present in the conversations map but absent from
the chat-to-participants map hits the unguarded lookup
`contacts_in_chat[id]`, whose `KeyError` is raised outside the per-message
`try` and aborts the whole run: no output list is ever produced. -/
theorem C10_missing_participants_aborts :
    ∀ (hm : Int → Option (List Char))
      (cm : List Char → Option (Option (List Char)))
      (cic : List Char → Option (List Int))
      (render : MessageInfo → Except PyErr (List Char))
      (convs : List (List Char × List MessageInfo))
      (id : List Char) (conv : List MessageInfo) (out : List ChatDoc),
      (id, conv) ∈ convs → cic id = none →
      main_loop hm cm cic render convs ≠ .ok out := by
  intro hm cm cic render convs id conv out hmem hcic
  induction convs generalizing out with
  | nil => exact absurd hmem (List.not_mem_nil _)
  | cons p rest ih =>
    intro hok
    unfold main_loop mapOrErr at hok
    rcases List.mem_cons.mp hmem with heq | hmem2
    · have hp : process_chat hm cm cic render p.1 p.2 = .error (.keyError id) := by
        rw [← heq]
        unfold process_chat
        rw [hcic]
      rw [hp] at hok
      exact Except.noConfusion hok
    · cases hp : process_chat hm cm cic render p.1 p.2 with
      | error e =>
        rw [hp] at hok
        exact Except.noConfusion hok
      | ok d =>
        rw [hp] at hok
        cases hrest : mapOrErr
            (fun q => process_chat hm cm cic render q.1 q.2) rest with
        | error e =>
          rw [hrest] at hok
          exact Except.noConfusion hok
        | ok ds =>
          exact ih ds hmem2 (by
            show main_loop hm cm cic render rest = .ok ds
            unfold main_loop
            exact hrest)

/-- C10 witness: a run over one chat whose identifier has no participant
rows never completes. -/
theorem C10_missing_participants_witness :
    main_loop (fun _ => none) (fun _ => none) (fun _ => none)
      (fun _ => .ok []) [((("c").data), [])] ≠ .ok [] :=
  C10_missing_participants_aborts (fun _ => none) (fun _ => none) (fun _ => none)
    (fun _ => .ok []) [((("c").data), [])] (("c").data) [] [] (by decide) rfl

end Archiver
